import Mathlib

/-!
Shallow embedding of `diesel_ltree` (`src/lib.rs`): the `Ltree` value type,
its binary-protocol codec (`ToSql<Ltree, Pg>` / `FromSql<Ltree, Pg>`), its
text-protocol codec (delegating to the underlying string type), the declared
SQL function signatures, and the infix operator expression builders.

Bytes are modelled as `Nat` (values below 256 where the code produces them);
Rust's `String` is modelled as Lean's `String` (both are sequences of Unicode
scalar values, and both are valid UTF-8 by construction).  Fallible Rust code
returning `Result` is modelled with `Except String`, carrying the error
message of the corresponding `std::io` error.
-/

/-- UTF-8 encoding of a single Unicode scalar value, as Rust's
`str::as_bytes` exposes it (the `char` encoding of the Rust core library). -/
def utf8EncodeChar (c : Nat) : List Nat :=
  if c < 0x80 then
    [c]
  else if c < 0x800 then
    [0xC0 + c / 64, 0x80 + c % 64]
  else if c < 0x10000 then
    [0xE0 + c / 4096, 0x80 + c / 64 % 64, 0x80 + c % 64]
  else
    [0xF0 + c / 262144, 0x80 + c / 4096 % 64, 0x80 + c / 64 % 64, 0x80 + c % 64]

/-- UTF-8 encoding of a string (given as its list of characters): the bytes
`String::as_bytes` exposes in Rust. -/
def utf8Encode : List Char → List Nat
  | [] => []
  | c :: cs => utf8EncodeChar c.toNat ++ utf8Encode cs

/-- One-byte-at-a-time strict UTF-8 decoder, a direct transcription of the
byte-classification loop of Rust's `str::from_utf8` validation
(`run_utf8_validation`): a first byte below `0x80` stands alone; first bytes
`0x80..0xC1` are rejected (continuation bytes and overlong 2-byte forms);
`0xC2..0xDF` start a 2-byte sequence; `0xE0`/`0xED`/other `0xE1..0xEF` start
3-byte sequences whose first continuation byte is restricted to
`0xA0..0xBF` / `0x80..0x9F` / `0x80..0xBF` (excluding overlong forms and
surrogates); `0xF0`/`0xF1..0xF3`/`0xF4` start 4-byte sequences whose first
continuation byte is restricted to `0x90..0xBF` / `0x80..0xBF` / `0x80..0x8F`
(excluding overlong forms and values above `0x10FFFF`); `0xF5..0xFF` are
rejected.  `need` counts outstanding continuation bytes, `val` the partial
scalar value, and `lo`/`hi` bound the next continuation byte. -/
def utf8DecodeLoop (need val lo hi : Nat) : List Nat → Option (List Nat)
  | [] => if need = 0 then some [] else none
  | b :: rest =>
    if need = 0 then
      if b < 0x80 then (utf8DecodeLoop 0 0 0 0 rest).map (b :: ·)
      else if b < 0xC2 then none
      else if b < 0xE0 then utf8DecodeLoop 1 (b - 0xC0) 0x80 0xC0 rest
      else if b = 0xE0 then utf8DecodeLoop 2 0 0xA0 0xC0 rest
      else if b = 0xED then utf8DecodeLoop 2 13 0x80 0xA0 rest
      else if b < 0xF0 then utf8DecodeLoop 2 (b - 0xE0) 0x80 0xC0 rest
      else if b = 0xF0 then utf8DecodeLoop 3 0 0x90 0xC0 rest
      else if b < 0xF4 then utf8DecodeLoop 3 (b - 0xF0) 0x80 0xC0 rest
      else if b = 0xF4 then utf8DecodeLoop 3 4 0x80 0x90 rest
      else none
    else if lo ≤ b ∧ b < hi then
      if need = 1 then (utf8DecodeLoop 0 0 0 0 rest).map ((val * 64 + (b - 0x80)) :: ·)
      else utf8DecodeLoop (need - 1) (val * 64 + (b - 0x80)) 0x80 0xC0 rest
    else none

/-- Strict UTF-8 decoding of a byte sequence into Unicode scalar values, as
Rust's `str::from_utf8` performs it.  Returns `none` on invalid input;
`Read::read_to_string` surfaces that as an `std::io` error. -/
def utf8Decode (l : List Nat) : Option (List Nat) :=
  utf8DecodeLoop 0 0 0 0 l

/-- The `Ltree` value newtype: `pub struct Ltree(pub String)` (lib.rs:36). -/
structure Ltree where
  path : String
deriving DecidableEq, Repr

/-- Diesel's `serialize::IsNull` flag returned by `to_sql`. -/
inductive IsNull
  | Yes
  | No
deriving DecidableEq, Repr

/-- The serialization output buffer (`serialize::Output`), modelled as the
byte buffer written so far. -/
structure Output where
  buf : List Nat
deriving DecidableEq, Repr

/-- `std::io::Write::write_all` on a growable buffer: appends the bytes and
never fails. -/
def writeAll (out : Output) (bytes : List Nat) : Except String Output :=
  .ok ⟨out.buf ++ bytes⟩

/-- Binary-protocol encoder `ToSql<Ltree, Pg> for Ltree` (lib.rs:38-43):
`out.write_all(self.0.as_bytes())?; Ok(IsNull::No)`. -/
def Ltree.to_sql (t : Ltree) (out : Output) : Except String (Output × IsNull) :=
  match writeAll out (utf8Encode t.path.data) with
  | .ok o => .ok (o, IsNull.No)
  | .error e => .error e

/-- Interpretation of one raw byte as a signed 8-bit integer, as
`ReadBytesExt::read_i8` performs it. -/
def i8OfByte (b : Nat) : Int :=
  if b % 256 < 128 then ((b % 256 : Nat) : Int) else ((b % 256 : Nat) : Int) - 256

/-- Binary-protocol decoder `FromSql<Ltree, Pg> for Ltree` (lib.rs:45-56),
as compiled in release builds: `read_i8` fails on an empty payload
(`failed to fill whole buffer`); the version byte is read as an `i8`, but the
`debug_assert_eq!(version, 1, "Unknown ltree binary protocol version.")` is
compiled out of release builds, so the version's value does not affect the
result; `read_to_string` decodes all remaining bytes as UTF-8, failing on
invalid input (`stream did not contain valid UTF-8`). -/
def Ltree.from_sql : List Nat → Except String Ltree
  | [] => .error "failed to fill whole buffer"
  | v :: rest =>
    let _version : Int := i8OfByte v
    match utf8Decode rest with
    | some scalars => .ok ⟨String.mk (scalars.map Char.ofNat)⟩
    | none => .error "stream did not contain valid UTF-8"

/-- Modelled from the spec: the host ORM's `ToSql<Text, DB> for String`
implementation is not in `src/`; per the spec the text form of a string is
byte-identical to its contents, so its encoder writes the string's UTF-8
bytes as-is. -/
def stringTextToSql (s : String) (out : Output) : Except String (Output × IsNull) :=
  match writeAll out (utf8Encode s.data) with
  | .ok o => .ok (o, IsNull.No)
  | .error e => .error e

/-- Modelled from the spec: the host ORM's `FromSql<Text, DB> for String`
implementation is not in `src/`; per the spec it decodes the raw bytes of the
text-protocol payload, byte-identical to the string contents. -/
def stringTextFromSql (raw : List Nat) : Except String String :=
  match utf8Decode raw with
  | some scalars => .ok (String.mk (scalars.map Char.ofNat))
  | none => .error "stream did not contain valid UTF-8"

/-- Text-protocol encoder `ToSql<Text, DB> for Ltree` (lib.rs:58-70):
`self.0.to_sql(out)` — delegates to the string's text encoder. -/
def Ltree.textToSql (t : Ltree) (out : Output) : Except String (Output × IsNull) :=
  stringTextToSql t.path out

/-- Text-protocol decoder `FromSql<Text, DB> for Ltree` (lib.rs:72-81):
`String::from_sql(value).map(Ltree)` — delegates to the string's text
decoder and wraps the result. -/
def Ltree.textFromSql (raw : List Nat) : Except String Ltree :=
  (stringTextFromSql raw).map Ltree.mk

/-- The SQL types named by the declarations in `mod sql_types` (lib.rs:7-22)
and `diesel::sql_types` used by `mod functions`. -/
inductive SqlT
  | Ltree
  | Lquery
  | Ltxtquery
  | Int4
  | Text
  | Array (t : SqlT)
deriving DecidableEq, Repr

/-- The typed signature declared by one `sql_function!` invocation. -/
structure SqlFunctionSig where
  name : String
  args : List (String × SqlT)
  ret : SqlT
deriving DecidableEq, Repr

/-- The function surface declared in `mod functions` (lib.rs:88-99), in
source order; the commented-out overloads `subpath/2` and `index/2` are not
declared. -/
def functions : List SqlFunctionSig :=
  [⟨"subltree", [("ltree", .Ltree), ("start", .Int4), ("end", .Int4)], .Ltree⟩,
   ⟨"subpath", [("ltree", .Ltree), ("offset", .Int4), ("len", .Int4)], .Ltree⟩,
   ⟨"nlevel", [("ltree", .Ltree)], .Int4⟩,
   ⟨"index", [("a", .Ltree), ("b", .Ltree), ("offset", .Int4)], .Int4⟩,
   ⟨"text2ltree", [("text", .Text)], .Ltree⟩,
   ⟨"ltree2text", [("ltree", .Ltree)], .Text⟩,
   ⟨"lca", [("ltrees", .Array .Ltree)], .Ltree⟩,
   ⟨"lquery", [("x", .Text)], .Lquery⟩,
   ⟨"ltxtquery", [("x", .Text)], .Ltxtquery⟩]

/-- An infix SQL operator as declared by `infix_operator!`: the exact text
pushed between the two operand fragments by the generated `walk_ast`. -/
structure SqlOp where
  sql : String
deriving DecidableEq, Repr

/-- `infix_operator!(Contains, " @> ", backend: Pg)` (lib.rs:111). -/
def predicates.Contains : SqlOp := ⟨" @> "⟩

/-- `infix_operator!(ContainedBy, " <@ ", backend: Pg)` (lib.rs:112). -/
def predicates.ContainedBy : SqlOp := ⟨" <@ "⟩

/-- `infix_operator!(Matches, " ~ ", backend: Pg)` (lib.rs:113). -/
def predicates.Matches : SqlOp := ⟨" ~ "⟩

/-- `infix_operator!(MatchesAny, " ? ", backend: Pg)` (lib.rs:114). -/
def predicates.MatchesAny : SqlOp := ⟨" ? "⟩

/-- `infix_operator!(TMatches, " @ ", backend: Pg)` (lib.rs:115). -/
def predicates.TMatches : SqlOp := ⟨" @ "⟩

/-- `infix_operator!(Concat, " || ", Ltree, backend: Pg)` (lib.rs:116). -/
def predicates.Concat : SqlOp := ⟨" || "⟩

/-- `infix_operator!(FirstContains, " ?@> ", Ltree, backend: Pg)` (lib.rs:117). -/
def predicates.FirstContains : SqlOp := ⟨" ?@> "⟩

/-- `infix_operator!(FirstContainedBy, " ?<@ ", Ltree, backend: Pg)` (lib.rs:118). -/
def predicates.FirstContainedBy : SqlOp := ⟨" ?<@ "⟩

/-- `infix_operator!(FirstMatches, " ?~ ", Ltree, backend: Pg)` (lib.rs:119). -/
def predicates.FirstMatches : SqlOp := ⟨" ?~ "⟩

/-- `infix_operator!(FirstTMatches, " ?@ ", Ltree, backend: Pg)` (lib.rs:120). -/
def predicates.FirstTMatches : SqlOp := ⟨" ?@ "⟩

/-- An operator expression built by one of the extension-trait methods: the
chosen operator together with the rendered SQL of its two operands. -/
structure OpExpr where
  op : SqlOp
  left : String
  right : String
deriving DecidableEq, Repr

/-- SQL generation for an infix operator expression, as the `walk_ast`
generated by `infix_operator!` performs it: walk the left operand, push the
operator text, walk the right operand. -/
def OpExpr.render (e : OpExpr) : String :=
  e.left ++ e.op.sql ++ e.right

/-- `LtreeExtensions::contains` (lib.rs:126-128): `Contains::new`. -/
def LtreeExtensions.contains (l r : String) : OpExpr := ⟨predicates.Contains, l, r⟩

/-- `LtreeExtensions::contains_any` (lib.rs:130-135): `Contains::new`. -/
def LtreeExtensions.contains_any (l r : String) : OpExpr := ⟨predicates.Contains, l, r⟩

/-- `LtreeExtensions::contained_by` (lib.rs:137-142): `ContainedBy::new`. -/
def LtreeExtensions.contained_by (l r : String) : OpExpr := ⟨predicates.ContainedBy, l, r⟩

/-- `LtreeExtensions::contained_by_any` (lib.rs:144-149): `ContainedBy::new`. -/
def LtreeExtensions.contained_by_any (l r : String) : OpExpr := ⟨predicates.ContainedBy, l, r⟩

/-- `LtreeExtensions::matches` (lib.rs:151-153): `Matches::new`. -/
def LtreeExtensions.matches (l r : String) : OpExpr := ⟨predicates.Matches, l, r⟩

/-- `LtreeExtensions::matches_any` (lib.rs:155-160): `MatchesAny::new`. -/
def LtreeExtensions.matches_any (l r : String) : OpExpr := ⟨predicates.MatchesAny, l, r⟩

/-- `LtreeExtensions::tmatches` (lib.rs:162-164): `TMatches::new`. -/
def LtreeExtensions.tmatches (l r : String) : OpExpr := ⟨predicates.TMatches, l, r⟩

/-- `LtreeExtensions::concat` (lib.rs:166-168): `Concat::new`. -/
def LtreeExtensions.concat (l r : String) : OpExpr := ⟨predicates.Concat, l, r⟩

/-- `LtreeArrayExtensions::any_contains` (lib.rs:172-174): `Contains::new`. -/
def LtreeArrayExtensions.any_contains (l r : String) : OpExpr := ⟨predicates.Contains, l, r⟩

/-- `LtreeArrayExtensions::any_contained_by` (lib.rs:176-181): `ContainedBy::new`. -/
def LtreeArrayExtensions.any_contained_by (l r : String) : OpExpr := ⟨predicates.ContainedBy, l, r⟩

/-- `LtreeArrayExtensions::any_matches` (lib.rs:183-185): `Matches::new`. -/
def LtreeArrayExtensions.any_matches (l r : String) : OpExpr := ⟨predicates.Matches, l, r⟩

/-- `LtreeArrayExtensions::any_matches_any` (lib.rs:187-192): `MatchesAny::new`. -/
def LtreeArrayExtensions.any_matches_any (l r : String) : OpExpr := ⟨predicates.MatchesAny, l, r⟩

/-- `LtreeArrayExtensions::any_tmatches` (lib.rs:194-199): `TMatches::new`. -/
def LtreeArrayExtensions.any_tmatches (l r : String) : OpExpr := ⟨predicates.TMatches, l, r⟩

/-- `LtreeArrayExtensions::first_contains` (lib.rs:201-206): `FirstContains::new`. -/
def LtreeArrayExtensions.first_contains (l r : String) : OpExpr := ⟨predicates.FirstContains, l, r⟩

/-- `LtreeArrayExtensions::first_contained_by` (lib.rs:208-213): `FirstContainedBy::new`. -/
def LtreeArrayExtensions.first_contained_by (l r : String) : OpExpr :=
  ⟨predicates.FirstContainedBy, l, r⟩

/-- `LtreeArrayExtensions::first_matches` (lib.rs:215-220): `FirstMatches::new`. -/
def LtreeArrayExtensions.first_matches (l r : String) : OpExpr := ⟨predicates.FirstMatches, l, r⟩

/-- `LtreeArrayExtensions::first_tmatches` (lib.rs:222-227): `FirstTMatches::new`. -/
def LtreeArrayExtensions.first_tmatches (l r : String) : OpExpr := ⟨predicates.FirstTMatches, l, r⟩

/-- `LqueryExtensions::matches` (lib.rs:231-233): `Matches::new`. -/
def LqueryExtensions.matches (l r : String) : OpExpr := ⟨predicates.Matches, l, r⟩

/-- `LqueryExtensions::matches_any` (lib.rs:235-240): `Matches::new` — note
that this method constructs `Matches` (`" ~ "`), not `MatchesAny` (`" ? "`). -/
def LqueryExtensions.matches_any (l r : String) : OpExpr := ⟨predicates.Matches, l, r⟩

/-- `LqueryArrayExtensions::any_matches` (lib.rs:244-246): `MatchesAny::new`. -/
def LqueryArrayExtensions.any_matches (l r : String) : OpExpr := ⟨predicates.MatchesAny, l, r⟩

/-- `LqueryArrayExtensions::any_matches_any` (lib.rs:248-253): `MatchesAny::new`. -/
def LqueryArrayExtensions.any_matches_any (l r : String) : OpExpr :=
  ⟨predicates.MatchesAny, l, r⟩

/-- `LtxtqueryExtensions::tmatches` (lib.rs:257-259): `TMatches::new`. -/
def LtxtqueryExtensions.tmatches (l r : String) : OpExpr := ⟨predicates.TMatches, l, r⟩

/-- `LtxtqueryExtensions::tmatches_any` (lib.rs:261-266): `TMatches::new`. -/
def LtxtqueryExtensions.tmatches_any (l r : String) : OpExpr := ⟨predicates.TMatches, l, r⟩

theorem decodeLoop_start_ascii (b : Nat) (hb : b < 0x80) (rest : List Nat) :
    utf8DecodeLoop 0 0 0 0 (b :: rest) = (utf8DecodeLoop 0 0 0 0 rest).map (b :: ·) := by
  rw [utf8DecodeLoop, if_pos rfl, if_pos hb]

theorem decodeLoop_start_two (b : Nat) (h1 : 0xC2 ≤ b) (h2 : b < 0xE0) (rest : List Nat) :
    utf8DecodeLoop 0 0 0 0 (b :: rest) = utf8DecodeLoop 1 (b - 0xC0) 0x80 0xC0 rest := by
  have g1 : ¬ b < 0x80 := by omega
  have g2 : ¬ b < 0xC2 := by omega
  rw [utf8DecodeLoop, if_pos rfl, if_neg g1, if_neg g2, if_pos h2]

theorem decodeLoop_start_e0 (rest : List Nat) :
    utf8DecodeLoop 0 0 0 0 (0xE0 :: rest) = utf8DecodeLoop 2 0 0xA0 0xC0 rest :=
  rfl

theorem decodeLoop_start_ed (rest : List Nat) :
    utf8DecodeLoop 0 0 0 0 (0xED :: rest) = utf8DecodeLoop 2 13 0x80 0xA0 rest :=
  rfl

theorem decodeLoop_start_three (b : Nat) (h1 : 0xE0 < b) (h2 : b < 0xF0) (hed : b ≠ 0xED)
    (rest : List Nat) :
    utf8DecodeLoop 0 0 0 0 (b :: rest) = utf8DecodeLoop 2 (b - 0xE0) 0x80 0xC0 rest := by
  have g1 : ¬ b < 0x80 := by omega
  have g2 : ¬ b < 0xC2 := by omega
  have g3 : ¬ b < 0xE0 := by omega
  have g4 : b ≠ 0xE0 := by omega
  rw [utf8DecodeLoop, if_pos rfl, if_neg g1, if_neg g2, if_neg g3, if_neg g4, if_neg hed,
    if_pos h2]

theorem decodeLoop_start_f0 (rest : List Nat) :
    utf8DecodeLoop 0 0 0 0 (0xF0 :: rest) = utf8DecodeLoop 3 0 0x90 0xC0 rest :=
  rfl

theorem decodeLoop_start_f4 (rest : List Nat) :
    utf8DecodeLoop 0 0 0 0 (0xF4 :: rest) = utf8DecodeLoop 3 4 0x80 0x90 rest :=
  rfl

theorem decodeLoop_start_four (b : Nat) (h1 : 0xF0 < b) (h2 : b < 0xF4) (rest : List Nat) :
    utf8DecodeLoop 0 0 0 0 (b :: rest) = utf8DecodeLoop 3 (b - 0xF0) 0x80 0xC0 rest := by
  have g1 : ¬ b < 0x80 := by omega
  have g2 : ¬ b < 0xC2 := by omega
  have g3 : ¬ b < 0xE0 := by omega
  have g4 : b ≠ 0xE0 := by omega
  have g5 : b ≠ 0xED := by omega
  have g6 : ¬ b < 0xF0 := by omega
  have g7 : b ≠ 0xF0 := by omega
  rw [utf8DecodeLoop, if_pos rfl, if_neg g1, if_neg g2, if_neg g3, if_neg g4, if_neg g5,
    if_neg g6, if_neg g7, if_pos h2]

theorem decodeLoop_cont (need val lo hi b : Nat) (hn0 : need ≠ 0) (hn1 : need ≠ 1)
    (hb : lo ≤ b ∧ b < hi) (rest : List Nat) :
    utf8DecodeLoop need val lo hi (b :: rest) =
      utf8DecodeLoop (need - 1) (val * 64 + (b - 0x80)) 0x80 0xC0 rest := by
  rw [utf8DecodeLoop, if_neg hn0, if_pos hb, if_neg hn1]

theorem decodeLoop_cont_last (val lo hi b : Nat) (hb : lo ≤ b ∧ b < hi) (rest : List Nat) :
    utf8DecodeLoop 1 val lo hi (b :: rest) =
      (utf8DecodeLoop 0 0 0 0 rest).map ((val * 64 + (b - 0x80)) :: ·) := by
  rw [utf8DecodeLoop, if_neg one_ne_zero, if_pos hb, if_pos rfl]

theorem utf8Decode_encodeChar_append (n : Nat)
    (h : n < 0xd800 ∨ (0xdfff < n ∧ n < 0x110000)) (rest : List Nat) :
    utf8DecodeLoop 0 0 0 0 (utf8EncodeChar n ++ rest) =
      (utf8DecodeLoop 0 0 0 0 rest).map (n :: ·) := by
  by_cases h1 : n < 0x80
  · rw [utf8EncodeChar, if_pos h1, List.cons_append, List.nil_append,
      decodeLoop_start_ascii n h1]
  · by_cases h2 : n < 0x800
    · rw [utf8EncodeChar, if_neg h1, if_pos h2]
      simp only [List.cons_append, List.nil_append]
      rw [decodeLoop_start_two _ (by omega) (by omega),
        decodeLoop_cont_last _ _ _ _ (by omega)]
      have hv : (0xC0 + n / 64 - 0xC0) * 64 + (0x80 + n % 64 - 0x80) = n := by omega
      rw [hv]
    · by_cases h3 : n < 0x10000
      · rw [utf8EncodeChar, if_neg h1, if_neg h2, if_pos h3]
        simp only [List.cons_append, List.nil_append]
        by_cases he0 : n < 0x1000
        · have hb0 : 0xE0 + n / 4096 = 0xE0 := by omega
          rw [hb0, decodeLoop_start_e0,
            decodeLoop_cont 2 0 _ _ _ (by omega) (by omega) (by omega),
            decodeLoop_cont_last _ _ _ _ (by omega)]
          have hv : (0 * 64 + (0x80 + n / 64 % 64 - 0x80)) * 64 + (0x80 + n % 64 - 0x80) = n := by
            omega
          rw [hv]
        · by_cases hed : 0xD000 ≤ n ∧ n < 0xE000
          · have hb0 : 0xE0 + n / 4096 = 0xED := by omega
            rw [hb0, decodeLoop_start_ed,
              decodeLoop_cont 2 13 _ _ _ (by omega) (by omega) (by omega),
              decodeLoop_cont_last _ _ _ _ (by omega)]
            have hv : (13 * 64 + (0x80 + n / 64 % 64 - 0x80)) * 64 + (0x80 + n % 64 - 0x80) = n := by
              omega
            rw [hv]
          · rw [decodeLoop_start_three _ (by omega) (by omega) (by omega),
              decodeLoop_cont 2 _ _ _ _ (by omega) (by omega) (by omega),
              decodeLoop_cont_last _ _ _ _ (by omega)]
            have hv : ((0xE0 + n / 4096 - 0xE0) * 64 + (0x80 + n / 64 % 64 - 0x80)) * 64 +
                (0x80 + n % 64 - 0x80) = n := by omega
            rw [hv]
      · rw [utf8EncodeChar, if_neg h1, if_neg h2, if_neg h3]
        simp only [List.cons_append, List.nil_append]
        by_cases hf0 : n < 0x40000
        · have hb0 : 0xF0 + n / 262144 = 0xF0 := by omega
          rw [hb0, decodeLoop_start_f0,
            decodeLoop_cont 3 0 _ _ _ (by omega) (by omega) (by omega),
            decodeLoop_cont 2 _ _ _ _ (by omega) (by omega) (by omega),
            decodeLoop_cont_last _ _ _ _ (by omega)]
          have hv : ((0 * 64 + (0x80 + n / 4096 % 64 - 0x80)) * 64 +
              (0x80 + n / 64 % 64 - 0x80)) * 64 + (0x80 + n % 64 - 0x80) = n := by omega
          rw [hv]
        · by_cases hf4 : 0x100000 ≤ n
          · have hb0 : 0xF0 + n / 262144 = 0xF4 := by omega
            rw [hb0, decodeLoop_start_f4,
              decodeLoop_cont 3 4 _ _ _ (by omega) (by omega) (by omega),
              decodeLoop_cont 2 _ _ _ _ (by omega) (by omega) (by omega),
              decodeLoop_cont_last _ _ _ _ (by omega)]
            have hv : ((4 * 64 + (0x80 + n / 4096 % 64 - 0x80)) * 64 +
                (0x80 + n / 64 % 64 - 0x80)) * 64 + (0x80 + n % 64 - 0x80) = n := by omega
            rw [hv]
          · rw [decodeLoop_start_four _ (by omega) (by omega),
              decodeLoop_cont 3 _ _ _ _ (by omega) (by omega) (by omega),
              decodeLoop_cont 2 _ _ _ _ (by omega) (by omega) (by omega),
              decodeLoop_cont_last _ _ _ _ (by omega)]
            have hv : (((0xF0 + n / 262144 - 0xF0) * 64 + (0x80 + n / 4096 % 64 - 0x80)) * 64 +
                (0x80 + n / 64 % 64 - 0x80)) * 64 + (0x80 + n % 64 - 0x80) = n := by omega
            rw [hv]

theorem utf8Decode_utf8Encode (s : List Char) :
    utf8Decode (utf8Encode s) = some (s.map Char.toNat) := by
  induction s with
  | nil => rfl
  | cons c cs ih =>
    rw [utf8Encode, utf8Decode] at *
    rw [utf8Decode_encodeChar_append c.toNat c.valid (utf8Encode cs), ih]
    rfl

theorem map_ofNat_map_toNat (s : List Char) :
    (s.map Char.toNat).map Char.ofNat = s := by
  rw [List.map_map]
  have h : Char.ofNat ∘ Char.toNat = id := funext Char.ofNat_toNat
  rw [h, List.map_id]

theorem from_sql_version_encode (v : Nat) (s : String) :
    Ltree.from_sql (v :: utf8Encode s.data) = .ok ⟨s⟩ := by
  simp only [Ltree.from_sql, utf8Decode_utf8Encode]
  rw [map_ofNat_map_toNat]

/-- C1: for every valid UTF-8 string `s`, binary-encoding `Ltree(s)` via
`ToSql` (into an empty output buffer) writes the UTF-8 bytes of `s` and
returns `IsNull::No`, and binary-decoding those bytes with a version byte `1`
prepended via `FromSql` yields `Ok(Ltree(s))`: the value round-trips. -/
theorem ltree_binary_roundtrip (s : String) :
    Ltree.to_sql ⟨s⟩ ⟨[]⟩ = .ok (⟨utf8Encode s.data⟩, IsNull.No) ∧
      Ltree.from_sql (1 :: utf8Encode s.data) = .ok ⟨s⟩ :=
  ⟨rfl, from_sql_version_encode 1 s⟩

/-- C2: the binary `ToSql` encoder writes exactly the raw UTF-8 bytes of the
contained path string into the output buffer — no length prefix, no version
byte, nothing else — and returns `Ok(IsNull::No)`. -/
theorem ltree_to_sql_raw_bytes (t : Ltree) :
    Ltree.to_sql t ⟨[]⟩ = .ok (⟨utf8Encode t.path.data⟩, IsNull.No) :=
  rfl

/-- C3: for every binary payload whose bytes after the one-byte version tag
are not valid UTF-8, the binary `FromSql` decoder returns a deserialization
error; being a total function of the embedding, it does not panic. -/
theorem ltree_from_sql_invalid_utf8_errors (v : Nat) (payload : List Nat)
    (h : utf8Decode payload = none) :
    Ltree.from_sql (v :: payload) = .error "stream did not contain valid UTF-8" := by
  simp only [Ltree.from_sql, h]

/-- Witness for C3 at version byte `1` and payload `[0xFF]`. -/
theorem ltree_from_sql_invalid_utf8_errors_witness :
    utf8Decode [0xFF] = none ∧
      Ltree.from_sql [1, 0xFF] = .error "stream did not contain valid UTF-8" :=
  ⟨rfl, ltree_from_sql_invalid_utf8_errors 1 [0xFF] rfl⟩

/-- C4: binary-decoding a zero-length payload (no bytes at all, hence no
version byte) returns the `read_i8` error and never `Ok` — in particular it
never yields `Ok(Ltree(""))`. -/
theorem ltree_from_sql_empty_errors :
    Ltree.from_sql [] = .error "failed to fill whole buffer" ∧
      ∀ t : Ltree, Ltree.from_sql [] ≠ .ok t :=
  ⟨rfl, fun _ h => Except.noConfusion h⟩

/-- C5: in release builds (the embedding models the compiled-out
`debug_assert_eq!`), for every version byte `v` — including values other
than `1` — followed by a valid UTF-8 payload encoding the string `p`, binary
decoding succeeds with `Ok(Ltree(p))`: the version check never fails the
operation. -/
theorem ltree_from_sql_ignores_version (v : Nat) (_hv : v < 256) (p : String) :
    Ltree.from_sql (v :: utf8Encode p.data) = .ok ⟨p⟩ :=
  from_sql_version_encode v p

/-- Witness for C5 at the non-`1` version byte `7` and payload `"a.b"`. -/
theorem ltree_from_sql_ignores_version_witness :
    7 < 256 ∧ Ltree.from_sql (7 :: utf8Encode "a.b".data) = .ok ⟨"a.b"⟩ :=
  ⟨by decide, ltree_from_sql_ignores_version 7 (by decide) "a.b"⟩

/-- C6: text-protocol serialization of an `Ltree` delegates to the contained
string's `Text` codec: encoding `Ltree("a.b.c")` writes exactly the bytes
`a.b.c` (97, 46, 98, 46, 99) with no escaping, and decoding any byte payload
yields `Ltree` of exactly the string the string-codec decodes from it. -/
theorem ltree_text_protocol_delegates :
    Ltree.textToSql ⟨"a.b.c"⟩ ⟨[]⟩ = .ok (⟨[97, 46, 98, 46, 99]⟩, IsNull.No) ∧
      (∀ t : Ltree, ∀ out : Output, Ltree.textToSql t out = stringTextToSql t.path out) ∧
      (∀ raw : List Nat, Ltree.textFromSql raw = (stringTextFromSql raw).map Ltree.mk) :=
  ⟨rfl, fun _ _ => rfl, fun _ => rfl⟩

/-- C7: the declared SQL function surface is exactly `subltree(ltree, int4,
int4) → ltree`, `subpath(ltree, int4, int4) → ltree`, `nlevel(ltree) → int4`,
`index(ltree, ltree, int4) → int4`, `text2ltree(text) → ltree`,
`ltree2text(ltree) → text`, `lca(ltree[]) → ltree`, and the constructors
`lquery(text) → lquery` and `ltxtquery(text) → ltxtquery`. -/
theorem sql_function_surface :
    functions.map (fun f => (f.name, f.args.map Prod.snd, f.ret)) =
      [("subltree", [SqlT.Ltree, SqlT.Int4, SqlT.Int4], SqlT.Ltree),
       ("subpath", [SqlT.Ltree, SqlT.Int4, SqlT.Int4], SqlT.Ltree),
       ("nlevel", [SqlT.Ltree], SqlT.Int4),
       ("index", [SqlT.Ltree, SqlT.Ltree, SqlT.Int4], SqlT.Int4),
       ("text2ltree", [SqlT.Text], SqlT.Ltree),
       ("ltree2text", [SqlT.Ltree], SqlT.Text),
       ("lca", [SqlT.Array SqlT.Ltree], SqlT.Ltree),
       ("lquery", [SqlT.Text], SqlT.Lquery),
       ("ltxtquery", [SqlT.Text], SqlT.Ltxtquery)] :=
  rfl

/-- C8 counterexample: `LqueryExtensions::matches_any` constructs the
`Matches` operator, so it renders `" ~ "`, not `" ? "` as the claim states:
at left operand `"q"` and right operand `"paths"` the generated SQL is
`q ~ paths`, not `q ? paths`. -/
theorem lquery_matches_any_renders_tilde :
    (LqueryExtensions.matches_any "q" "paths").render = "q ~ paths" ∧
      (LqueryExtensions.matches_any "q" "paths").render ≠ "q" ++ " ? " ++ "paths" :=
  ⟨rfl, by decide⟩

/-- C8 (amended): every operator-producing method renders its declared
operator token between the two operand expressions with single surrounding
spaces and nothing else; `matches` renders `" ~ "`, the `matches_any` methods
of the ltree and lquery-array traits render `" ? "`, but
`LqueryExtensions::matches_any` constructs `Matches` and renders `" ~ "`;
the ten declared operator tokens are `@>`, `<@`, `~`, `?`, `@`, `||`, `?@>`,
`?<@`, `?~`, `?@`. -/
theorem operator_render_amended (l r : String) :
    (LtreeExtensions.contains l r).render = l ++ " @> " ++ r ∧
      (LtreeExtensions.contains_any l r).render = l ++ " @> " ++ r ∧
      (LtreeExtensions.contained_by l r).render = l ++ " <@ " ++ r ∧
      (LtreeExtensions.contained_by_any l r).render = l ++ " <@ " ++ r ∧
      (LtreeExtensions.matches l r).render = l ++ " ~ " ++ r ∧
      (LtreeExtensions.matches_any l r).render = l ++ " ? " ++ r ∧
      (LtreeExtensions.tmatches l r).render = l ++ " @ " ++ r ∧
      (LtreeExtensions.concat l r).render = l ++ " || " ++ r ∧
      (LtreeArrayExtensions.any_contains l r).render = l ++ " @> " ++ r ∧
      (LtreeArrayExtensions.any_contained_by l r).render = l ++ " <@ " ++ r ∧
      (LtreeArrayExtensions.any_matches l r).render = l ++ " ~ " ++ r ∧
      (LtreeArrayExtensions.any_matches_any l r).render = l ++ " ? " ++ r ∧
      (LtreeArrayExtensions.any_tmatches l r).render = l ++ " @ " ++ r ∧
      (LtreeArrayExtensions.first_contains l r).render = l ++ " ?@> " ++ r ∧
      (LtreeArrayExtensions.first_contained_by l r).render = l ++ " ?<@ " ++ r ∧
      (LtreeArrayExtensions.first_matches l r).render = l ++ " ?~ " ++ r ∧
      (LtreeArrayExtensions.first_tmatches l r).render = l ++ " ?@ " ++ r ∧
      (LqueryExtensions.matches l r).render = l ++ " ~ " ++ r ∧
      (LqueryExtensions.matches_any l r).render = l ++ " ~ " ++ r ∧
      (LqueryArrayExtensions.any_matches l r).render = l ++ " ? " ++ r ∧
      (LqueryArrayExtensions.any_matches_any l r).render = l ++ " ? " ++ r ∧
      (LtxtqueryExtensions.tmatches l r).render = l ++ " @ " ++ r ∧
      (LtxtqueryExtensions.tmatches_any l r).render = l ++ " @ " ++ r ∧
      [predicates.Contains.sql, predicates.ContainedBy.sql, predicates.Matches.sql,
        predicates.MatchesAny.sql, predicates.TMatches.sql, predicates.Concat.sql,
        predicates.FirstContains.sql, predicates.FirstContainedBy.sql,
        predicates.FirstMatches.sql, predicates.FirstTMatches.sql] =
        [" @> ", " <@ ", " ~ ", " ? ", " @ ", " || ", " ?@> ", " ?<@ ", " ?~ ", " ?@ "] :=
  ⟨rfl, rfl, rfl, rfl, rfl, rfl, rfl, rfl, rfl, rfl, rfl, rfl, rfl, rfl, rfl, rfl, rfl,
    rfl, rfl, rfl, rfl, rfl, rfl, rfl⟩

/-- C9: binary-decoding a one-byte payload consisting of only the version
byte succeeds with `Ok(Ltree(""))`: the empty path is accepted even though
no label bytes follow the version tag. -/
theorem ltree_from_sql_version_only :
    Ltree.from_sql [1] = .ok ⟨""⟩ :=
  rfl

/-- C10: binary encoding via `ToSql` is infallible and never signals SQL
NULL: for every `Ltree` value and output buffer it returns `Ok(IsNull::No)`
after appending the path's bytes, and for `Ltree("")` it appends zero
bytes. -/
theorem ltree_to_sql_infallible :
    (∀ t : Ltree, ∀ out : Output,
        Ltree.to_sql t out = .ok (⟨out.buf ++ utf8Encode t.path.data⟩, IsNull.No)) ∧
      Ltree.to_sql ⟨""⟩ ⟨[]⟩ = .ok (⟨[]⟩, IsNull.No) :=
  ⟨fun _ _ => rfl, rfl⟩
